import Mathlib

/-!
# Verification of the customer-support classification core

Shallow embedding of the decision logic of the `aws-customer-support-api`
repository, together with proofs of the specified properties.

Modelling conventions:
* a Python `str` is modelled as a Lean `String`; pattern matching and keyword
  scanning work on its list of characters;
* Python floats are modelled as exact rationals (`ℚ`); the float rounding of
  `round(x, 3)` is modelled as rounding to a multiple of `1/1000`
  (Python rounds ties to even, Mathlib's `round` rounds ties up; every claim
  proved here is insensitive to the tie rule, and no evaluated value hits a
  tie);
* the regexes used by the repository are alternations of sequences of literal
  chunks separated by `.*` gaps; they are embedded as structured pattern data
  (groups such as `(上|部)長` are distributed into the alternation);
* `datetime.utcnow()` is modelled by passing the clock reading as an explicit
  argument.
-/

/-! ## Characters and strings -/

/-- Python `str.lower` on one character.  Only ASCII letters occur in the
case-sensitive parts of this repository's dictionaries and patterns, so the
embedding lowers exactly the ASCII range. -/
def lowerChar (c : Char) : Char :=
  if 'A' ≤ c ∧ c ≤ 'Z' then Char.ofNat (c.toNat + 32) else c

/-- The whitespace characters stripped by Python's `str.strip()` that are
relevant here (ASCII whitespace, NBSP and the ideographic space U+3000). -/
def isPySpace (c : Char) : Bool :=
  c = ' ' ∨ c = '\t' ∨ c = '\n' ∨ c = '\r' ∨
    c = Char.ofNat 0x0b ∨ c = Char.ofNat 0x0c ∨
    c = Char.ofNat 0xa0 ∨ c = Char.ofNat 0x3000

/-- Python's `not text or not text.strip()`: the text has no
non-whitespace character. -/
def isBlank (t : List Char) : Bool := t.all isPySpace

/-- Does `t` start with `kw`?  (`str.startswith`, spelled out on lists.) -/
def startsWithL : List Char → List Char → Bool
  | [], _ => true
  | _ :: _, [] => false
  | k :: ks, c :: cs => k == c && startsWithL ks cs

/-- Python's substring test `kw in t`. -/
def containsSub : List Char → List Char → Bool
  | [], kw => kw.isEmpty
  | c :: rest, kw => startsWithL kw (c :: rest) || containsSub rest kw

/-- Lexicographic (code-point) order on character lists: Python's `<=` on
strings, used to model `sorted(...)`. -/
def lexLe : List Char → List Char → Bool
  | [], _ => true
  | _ :: _, [] => false
  | a :: as, b :: bs => if a < b then true else if b < a then false else lexLe as bs

/-- Python string order. -/
def strLe (a b : String) : Bool := lexLe a.toList b.toList

/-- Insert into a list sorted by `strLe`. -/
def insertSorted (x : String) : List String → List String
  | [] => [x]
  | y :: ys => if strLe x y then x :: y :: ys else y :: insertSorted x ys

/-- Python `sorted(...)` over strings (insertion sort; the inputs sorted in
this development are duplicate-free, so any correct sort agrees with it). -/
def sortStrings : List String → List String
  | [] => []
  | x :: xs => insertSorted x (sortStrings xs)

/-- Deduplication keeping first occurrences (Python `set` accumulation,
observed through the final `sorted`). -/
def dedupKeepFirst (l : List String) : List String :=
  l.foldl (fun acc x => if x ∈ acc then acc else acc ++ [x]) []

/-! ## Risk Fusion (`src/functions/analyze/app.py`, `_calculate_combined_risk`) -/

/-- The 20-entry risk matrix of `_calculate_combined_risk`, verbatim. -/
def risk_matrix : List ((String × String) × String) :=
  [ (("critical", "anger"), "critical"),
    (("critical", "negative"), "critical"),
    (("critical", "neutral"), "critical"),
    (("critical", "positive"), "high"),
    (("high", "anger"), "critical"),
    (("high", "negative"), "high"),
    (("high", "neutral"), "high"),
    (("high", "positive"), "medium"),
    (("medium", "anger"), "high"),
    (("medium", "negative"), "medium"),
    (("medium", "neutral"), "medium"),
    (("medium", "positive"), "low"),
    (("low", "anger"), "medium"),
    (("low", "negative"), "medium"),
    (("low", "neutral"), "low"),
    (("low", "positive"), "low"),
    (("none", "anger"), "medium"),
    (("none", "negative"), "low"),
    (("none", "neutral"), "none"),
    (("none", "positive"), "none") ]

/-- `risk_matrix.get((harassment_severity, sentiment), "low")`. -/
def _calculate_combined_risk (harassment_severity sentiment : String) : String :=
  (risk_matrix.lookup (harassment_severity, sentiment)).getD "low"

/-- The five declared harassment-severity labels. -/
def severityLabels : List String := ["critical", "high", "medium", "low", "none"]

/-- The four declared sentiment labels. -/
def sentimentLabels : List String := ["anger", "negative", "neutral", "positive"]

theorem lookup_eq_none_of_not_mem_keys {α β : Type} [BEq α] [LawfulBEq α]
    (l : List (α × β)) (k : α) (h : k ∉ l.map Prod.fst) : l.lookup k = none := by
  induction l with
  | nil => rfl
  | cons e es ih =>
      simp only [List.map_cons, List.mem_cons, not_or] at h
      have hk : (k == e.1) = false := by
        simp [beq_eq_false_iff_ne]
        exact h.1
      simp [List.lookup, hk, ih h.2]

/-- C1: Risk Fusion (`_calculate_combined_risk`) is total on the declared
enums with the three pinned values, and any pair outside the 20-entry table
yields `"low"`. -/
theorem risk_fusion_total_and_defaults :
    (∀ hs ∈ severityLabels, ∀ s ∈ sentimentLabels,
        _calculate_combined_risk hs s ∈ severityLabels) ∧
    _calculate_combined_risk "critical" "anger" = "critical" ∧
    _calculate_combined_risk "none" "positive" = "none" ∧
    _calculate_combined_risk "high" "positive" = "medium" ∧
    (∀ hs s : String, (hs, s) ∉ risk_matrix.map Prod.fst →
        _calculate_combined_risk hs s = "low") := by
  refine ⟨by decide, by decide, by decide, by decide, ?_⟩
  intro hs s h
  unfold _calculate_combined_risk
  rw [lookup_eq_none_of_not_mem_keys _ _ h]
  rfl

/-- Witness for C1 at concrete inputs: an in-table pair lands in the enum and
an out-of-table severity string falls back to `"low"`. -/
theorem risk_fusion_total_and_defaults_witness :
    _calculate_combined_risk "medium" "anger" ∈ severityLabels ∧
    _calculate_combined_risk "unknown" "anger" = "low" :=
  ⟨risk_fusion_total_and_defaults.1 "medium" (by decide) "anger" (by decide),
   risk_fusion_total_and_defaults.2.2.2.2 "unknown" "anger" (by decide)⟩

/-! ## The pattern language

Every regex in this repository is an alternation of sequences of literal
chunks separated by `.*` gaps (groups are distributed into the alternation,
e.g. `(上|部)長.*出せ` becomes the two alternatives `上長.*出せ` and
`部長.*出せ`).  A `.` in Python's `re` does not match a newline, so the gap
consumed by an inner `.*` must be newline-free; the implicit scan of
`re.search` before the first chunk is unconstrained. -/

/-- A compiled pattern: the original regex text (used by the detector as the
rule identifier) and its alternatives, each a sequence of literal chunks. -/
structure Pat where
  src : String
  alts : List (List (List Char))
deriving DecidableEq, Repr

/-- Build a `Pat` from the regex text and its chunk decomposition. -/
def mkPat (src : String) (alts : List (List String)) : Pat :=
  ⟨src, alts.map (·.map String.toList)⟩

/-- Match the chunks in order against `t`, each preceded by a newline-free
gap (the regex `.*`). -/
def matchChunks : List (List Char) → List Char → Bool
  | [], _ => true
  | c :: cs, t =>
      (List.range (t.length + 1)).any fun i =>
        (t.take i).all (fun ch => ch != '\n') &&
        startsWithL c (t.drop i) &&
        matchChunks cs (t.drop (i + c.length))

/-- `re.search(p, t)`: some alternative matches starting at some position. -/
def reSearch (p : Pat) (t : List Char) : Bool :=
  p.alts.any fun alt =>
    match alt with
    | [] => true
    | c :: cs =>
        (List.range (t.length + 1)).any fun i =>
          startsWithL c (t.drop i) && matchChunks cs (t.drop (i + c.length))

/-- Lower-case every chunk of a pattern. -/
def lowerPat (p : Pat) : Pat :=
  { p with alts := p.alts.map (·.map (·.map lowerChar)) }

/-- `re.search(p, t, re.IGNORECASE)`: both sides lowered. -/
def searchCI (p : Pat) (t : List Char) : Bool :=
  reSearch (lowerPat p) (t.map lowerChar)

/-! ## Harassment detector (`src/layers/common/python/harassment_detector.py`) -/

inductive Severity
  | critical | high | medium | low | none
deriving DecidableEq, Repr

/-- `Severity.value` (the string label of the enum member). -/
def Severity.value : Severity → String
  | .critical => "critical"
  | .high => "high"
  | .medium => "medium"
  | .low => "low"
  | .none => "none"

/-- `severity_scores` from `detect_harassment`. -/
def severityScore : Severity → Nat
  | .critical => 4
  | .high => 3
  | .medium => 2
  | .low => 1
  | .none => 0

structure HarassmentResult where
  is_harassment : Bool
  severity : Severity
  confidence : ℚ
  matched_patterns : List String
  categories : List String
  recommendation : String
deriving DecidableEq, Repr

def CRITICAL_PATTERNS : List (Pat × String) :=
  [ (mkPat "殺す|ころす|コロス" [["殺す"], ["ころす"], ["コロス"]], "death_threat"),
    (mkPat "死ね|しね|シネ" [["死ね"], ["しね"], ["シネ"]], "death_wish"),
    (mkPat "爆破|放火|刺す" [["爆破"], ["放火"], ["刺す"]], "violence_threat"),
    (mkPat "訴え(る|てやる)|裁判|弁護士呼ぶ"
      [["訴える"], ["訴えてやる"], ["裁判"], ["弁護士呼ぶ"]], "legal_threat"),
    (mkPat "(上|部)長.*出せ.*殺|殺.*上.*出せ"
      [["上長", "出せ", "殺"], ["部長", "出せ", "殺"], ["殺", "上", "出せ"]],
      "escalation_threat") ]

def HIGH_PATTERNS : List (Pat × String) :=
  [ (mkPat "バカ|ばか|馬鹿" [["バカ"], ["ばか"], ["馬鹿"]], "insult_baka"),
    (mkPat "アホ|あほ|阿呆" [["アホ"], ["あほ"], ["阿呆"]], "insult_aho"),
    (mkPat "カス|かす|クズ|くず|屑"
      [["カス"], ["かす"], ["クズ"], ["くず"], ["屑"]], "insult_kasu"),
    (mkPat "ゴミ|ごみ|ゴミクズ" [["ゴミ"], ["ごみ"], ["ゴミクズ"]], "insult_gomi"),
    (mkPat "キチガイ|きちがい|基地外"
      [["キチガイ"], ["きちがい"], ["基地外"]], "insult_kichigai"),
    (mkPat "ふざけるな|ふざけんな|ナメてる|舐めてる"
      [["ふざけるな"], ["ふざけんな"], ["ナメてる"], ["舐めてる"]], "contempt"),
    (mkPat "能無し|無能|役立たず|使えない"
      [["能無し"], ["無能"], ["役立たず"], ["使えない"]], "incompetence_insult"),
    (mkPat "ボケ|ぼけ|ドアホ" [["ボケ"], ["ぼけ"], ["ドアホ"]], "insult_boke"),
    (mkPat "クソ|くそ|糞" [["クソ"], ["くそ"], ["糞"]], "insult_kuso"),
    (mkPat "ブス|デブ|ハゲ|キモい|きもい"
      [["ブス"], ["デブ"], ["ハゲ"], ["キモい"], ["きもい"]], "appearance_insult") ]

def MEDIUM_PATTERNS : List (Pat × String) :=
  [ (mkPat "今すぐ|すぐに|直ちに|至急"
      [["今すぐ"], ["すぐに"], ["直ちに"], ["至急"]], "urgency_pressure"),
    (mkPat "責任.*取れ|責任者.*出せ|上の者"
      [["責任", "取れ"], ["責任者", "出せ"], ["上の者"]], "escalation_demand"),
    (mkPat "金.*返せ|弁償しろ|賠償"
      [["金", "返せ"], ["弁償しろ"], ["賠償"]], "compensation_demand"),
    (mkPat "(SNS|ネット|Twitter|X).*晒す|拡散"
      [["SNS", "晒す"], ["ネット", "晒す"], ["Twitter", "晒す"], ["X", "晒す"],
       ["拡散"]], "social_media_threat"),
    (mkPat "二度と.*使わない|解約.*してやる"
      [["二度と", "使わない"], ["解約", "してやる"]], "service_threat"),
    (mkPat "いい加減に|何回.*言え|何度も"
      [["いい加減に"], ["何回", "言え"], ["何度も"]], "frustration_repeat") ]

def LOW_PATTERNS : List (Pat × String) :=
  [ (mkPat "困る|困って|不便" [["困る"], ["困って"], ["不便"]], "frustration"),
    (mkPat "遅い|遅すぎ|待たされ" [["遅い"], ["遅すぎ"], ["待たされ"]], "complaint_slow"),
    (mkPat "分かりにくい|説明.*ない|不親切"
      [["分かりにくい"], ["説明", "ない"], ["不親切"]], "complaint_unclear") ]

/-- The four tier groups in the order the detector scans them. -/
def ALL_RULES : List ((Pat × String) × Severity) :=
  CRITICAL_PATTERNS.map (fun r => (r, Severity.critical)) ++
  HIGH_PATTERNS.map (fun r => (r, Severity.high)) ++
  MEDIUM_PATTERNS.map (fun r => (r, Severity.medium)) ++
  LOW_PATTERNS.map (fun r => (r, Severity.low))

/-- The loop state of `detect_harassment`: accumulated matched patterns,
category set (insertion order; sorted at the end) and maximum severity. -/
structure ScanState where
  matched_patterns : List String
  categories : List String
  max_severity : Severity
deriving DecidableEq, Repr

/-- One iteration of the scanning loop of `detect_harassment`. -/
def scanStep (t : List Char) (st : ScanState) (rule : (Pat × String) × Severity) :
    ScanState :=
  if searchCI rule.1.1 t then
    { matched_patterns := st.matched_patterns ++ [rule.1.1.src]
      categories :=
        if rule.1.2 ∈ st.categories then st.categories else st.categories ++ [rule.1.2]
      max_severity :=
        if severityScore st.max_severity < severityScore rule.2 then rule.2
        else st.max_severity }
  else st

/-- The `recommendations` table of `detect_harassment`. -/
def recommendations : Severity → String
  | .critical => "即座に上席者へエスカレーション。通話録音を保存し、法務部門に報告してください。"
  | .high => "冷静に対応し、上席者への引き継ぎを準備してください。対応履歴を詳細に記録してください。"
  | .medium => "落ち着いたトーンで対応を継続。感情的にならず、事実ベースで回答してください。"
  | .low => "通常対応を継続。お客様の不満に寄り添いながら解決策を提示してください。"
  | .none => "通常対応を継続してください。"

/-- `max_severity in (Severity.CRITICAL, Severity.HIGH, Severity.MEDIUM)`. -/
def isHarassmentSev : Severity → Bool
  | .critical | .high | .medium => true
  | _ => false

/-- `detect_harassment(text)`. -/
def detect_harassment (text : String) : HarassmentResult :=
  let t := text.toList
  if isBlank t then
    { is_harassment := false
      severity := Severity.none
      confidence := 1
      matched_patterns := []
      categories := []
      recommendation := "入力なし" }
  else
    let st := ALL_RULES.foldl (scanStep t) ⟨[], [], Severity.none⟩
    let match_count := st.matched_patterns.length
    let confidence : ℚ :=
      if match_count = 0 then 0.9
      else if match_count = 1 then 0.7
      else if match_count ≤ 3 then 0.85
      else 0.95
    { is_harassment := isHarassmentSev st.max_severity
      severity := st.max_severity
      confidence := confidence
      matched_patterns := st.matched_patterns
      categories := sortStrings st.categories
      recommendation := recommendations st.max_severity }

/-- The rules whose pattern matches the text (in catalog order). -/
def triggeredRules (text : String) : List ((Pat × String) × Severity) :=
  ALL_RULES.filter (fun r => searchCI r.1.1 text.toList)

/-- The scanning loop collects the identifier of every matching rule, in
catalog order, across all tiers. -/
theorem foldl_scanStep_matched (t : List Char) (rs : List ((Pat × String) × Severity))
    (st : ScanState) :
    (rs.foldl (scanStep t) st).matched_patterns =
      st.matched_patterns ++
        (rs.filter (fun r => searchCI r.1.1 t)).map (fun r => r.1.1.src) := by
  induction rs generalizing st with
  | nil => simp
  | cons r rs ih =>
      simp only [List.foldl_cons, List.filter_cons]
      by_cases h : searchCI r.1.1 t
      · simp [scanStep, h, ih]
      · simp [scanStep, h, ih]

/-- Running maximum computed by the scanning loop, as a fold over the
severities of the matching rules. -/
theorem foldl_scanStep_max (t : List Char) (rs : List ((Pat × String) × Severity))
    (st : ScanState) :
    (rs.foldl (scanStep t) st).max_severity =
      ((rs.filter (fun r => searchCI r.1.1 t)).map (fun r => r.2)).foldl
        (fun m s => if severityScore m < severityScore s then s else m)
        st.max_severity := by
  induction rs generalizing st with
  | nil => simp
  | cons r rs ih =>
      simp only [List.foldl_cons, List.filter_cons]
      by_cases h : searchCI r.1.1 t
      · simp [scanStep, h, ih]
      · simp [scanStep, h, ih]

/-- The severity fold dominates its starting point. -/
theorem sevFold_ge_init (l : List Severity) (init : Severity) :
    severityScore init ≤
      severityScore (l.foldl
        (fun m s => if severityScore m < severityScore s then s else m) init) := by
  induction l generalizing init with
  | nil => simp
  | cons s l ih =>
      simp only [List.foldl_cons]
      by_cases h : severityScore init < severityScore s
      · exact le_trans (le_of_lt h) (by simpa [h] using ih s)
      · simpa [h] using ih init

/-- The severity fold dominates every element of the list. -/
theorem sevFold_ge_mem (l : List Severity) (init : Severity) :
    ∀ s ∈ l, severityScore s ≤
      severityScore (l.foldl
        (fun m s => if severityScore m < severityScore s then s else m) init) := by
  induction l generalizing init with
  | nil => simp
  | cons a l ih =>
      intro s hs
      rcases List.mem_cons.mp hs with rfl | hs
      · simp only [List.foldl_cons]
        by_cases h : severityScore init < severityScore s
        · simpa [h] using sevFold_ge_init l s
        · exact le_trans (le_of_not_lt h) (by simpa [h] using sevFold_ge_init l init)
      · simp only [List.foldl_cons]
        by_cases h : severityScore init < severityScore a
        · simpa [h] using ih a s hs
        · simpa [h] using ih init s hs

/-- The severity fold returns its starting point or an element of the list. -/
theorem sevFold_mem (l : List Severity) (init : Severity) :
    l.foldl (fun m s => if severityScore m < severityScore s then s else m) init = init ∨
      l.foldl (fun m s => if severityScore m < severityScore s then s else m) init ∈ l := by
  induction l generalizing init with
  | nil => simp
  | cons a l ih =>
      simp only [List.foldl_cons]
      by_cases h : severityScore init < severityScore a
      · simp only [h, if_pos]
        rcases ih a with h' | h'
        · rw [h']
          exact Or.inr (List.mem_cons_self a l)
        · exact Or.inr (List.mem_cons_of_mem a h')
      · simp only [h, if_neg, if_false]
        rcases ih init with h' | h'
        · exact Or.inl h'
        · exact Or.inr (List.mem_cons_of_mem a h')

theorem isHarassmentSev_iff (s : Severity) :
    isHarassmentSev s = true ↔
      (s = Severity.critical ∨ s = Severity.high ∨ s = Severity.medium) := by
  cases s <;> simp [isHarassmentSev]

/-- On non-blank text the detector's severity is the running maximum over the
severities of the triggered rules, and its matched-pattern list enumerates the
triggered rules. -/
theorem detect_harassment_char (text : String) (hb : isBlank text.toList = false) :
    (detect_harassment text).severity =
      ((triggeredRules text).map (fun r => r.2)).foldl
        (fun m s => if severityScore m < severityScore s then s else m)
        Severity.none ∧
    (detect_harassment text).matched_patterns =
      (triggeredRules text).map (fun r => r.1.1.src) ∧
    (detect_harassment text).is_harassment =
      isHarassmentSev (detect_harassment text).severity := by
  have hb' : isBlank text.data = false := hb
  refine ⟨?_, ?_, ?_⟩ <;>
    simp [detect_harassment, hb', triggeredRules, foldl_scanStep_max,
      foldl_scanStep_matched]

/-- C2: on non-blank text where rules from more than one severity tier match,
the returned severity is the highest triggered tier (it dominates every
triggered rule and is itself a triggered tier), `matched_patterns` lists every
matching rule from all tiers, and `is_harassment` holds exactly for severities
critical, high and medium. -/
theorem harassment_mixed_severity_resolution (text : String)
    (hb : isBlank text.toList = false)
    (r1 r2 : (Pat × String) × Severity)
    (h1 : r1 ∈ triggeredRules text) (h2 : r2 ∈ triggeredRules text)
    (hne : r1.2 ≠ r2.2) :
    (∀ r ∈ triggeredRules text,
        severityScore r.2 ≤ severityScore (detect_harassment text).severity) ∧
    (detect_harassment text).severity ∈ (triggeredRules text).map (fun r => r.2) ∧
    (detect_harassment text).matched_patterns =
      (triggeredRules text).map (fun r => r.1.1.src) ∧
    ((detect_harassment text).is_harassment = true ↔
      ((detect_harassment text).severity = Severity.critical ∨
       (detect_harassment text).severity = Severity.high ∨
       (detect_harassment text).severity = Severity.medium)) := by
  obtain ⟨hsev, hpat, hish⟩ := detect_harassment_char text hb
  have htier : ∀ r ∈ ALL_RULES, 1 ≤ severityScore r.2 := by decide
  refine ⟨?_, ?_, hpat, ?_⟩
  · intro r hr
    rw [hsev]
    exact sevFold_ge_mem _ Severity.none r.2 (List.mem_map_of_mem _ hr)
  · rcases sevFold_mem ((triggeredRules text).map (fun r => r.2)) Severity.none with
      hnone | hmem
    · exfalso
      have hle := sevFold_ge_mem ((triggeredRules text).map (fun r => r.2))
        Severity.none r1.2 (List.mem_map_of_mem _ h1)
      rw [hnone] at hle
      have h1' : 1 ≤ severityScore r1.2 :=
        htier r1 (List.mem_filter.mp h1).1
      have h0 : severityScore Severity.none = 0 := rfl
      rw [h0] at hle
      omega
    · rw [hsev]; exact hmem
  · rw [hish]
    exact isHarassmentSev_iff _

/-- Witness for C2: in "死ね、対応が遅い" a critical rule (death wish) and a
low rule (slowness complaint) both match; the theorem applies and resolves the
mixed severities. -/
theorem harassment_mixed_severity_resolution_witness :
    (∀ r ∈ triggeredRules "死ね、対応が遅い",
        severityScore r.2 ≤ severityScore (detect_harassment "死ね、対応が遅い").severity) ∧
    (detect_harassment "死ね、対応が遅い").severity ∈
      (triggeredRules "死ね、対応が遅い").map (fun r => r.2) ∧
    (detect_harassment "死ね、対応が遅い").matched_patterns =
      (triggeredRules "死ね、対応が遅い").map (fun r => r.1.1.src) ∧
    ((detect_harassment "死ね、対応が遅い").is_harassment = true ↔
      ((detect_harassment "死ね、対応が遅い").severity = Severity.critical ∨
       (detect_harassment "死ね、対応が遅い").severity = Severity.high ∨
       (detect_harassment "死ね、対応が遅い").severity = Severity.medium)) :=
  harassment_mixed_severity_resolution "死ね、対応が遅い" (by decide)
    ((mkPat "死ね|しね|シネ" [["死ね"], ["しね"], ["シネ"]], "death_wish"), Severity.critical)
    ((mkPat "遅い|遅すぎ|待たされ" [["遅い"], ["遅すぎ"], ["待たされ"]], "complaint_slow"),
      Severity.low)
    (by decide) (by decide) (by decide)

/-- C9: on non-blank text the detector's confidence is the step function of
the number of matched patterns across all tiers: 0 matches give 0.9, one match
0.7, two or three matches 0.85, four or more 0.95. -/
theorem harassment_confidence_step_function (text : String)
    (hb : isBlank text.toList = false) :
    (detect_harassment text).confidence =
      (if (detect_harassment text).matched_patterns.length = 0 then 0.9
       else if (detect_harassment text).matched_patterns.length = 1 then 0.7
       else if (detect_harassment text).matched_patterns.length ≤ 3 then 0.85
       else 0.95) := by
  have hb' : isBlank text.data = false := hb
  simp only [detect_harassment, hb, hb', Bool.false_eq_true, if_false]

/-- Witness for C9 on concrete inputs with 0, 1 and 5 matches. -/
theorem harassment_confidence_step_function_witness :
    ((detect_harassment "こんにちは").confidence =
      (if (detect_harassment "こんにちは").matched_patterns.length = 0 then 0.9
       else if (detect_harassment "こんにちは").matched_patterns.length = 1 then 0.7
       else if (detect_harassment "こんにちは").matched_patterns.length ≤ 3 then 0.85
       else 0.95)) ∧
    ((detect_harassment "届くのが遅い").confidence =
      (if (detect_harassment "届くのが遅い").matched_patterns.length = 0 then 0.9
       else if (detect_harassment "届くのが遅い").matched_patterns.length = 1 then 0.7
       else if (detect_harassment "届くのが遅い").matched_patterns.length ≤ 3 then 0.85
       else 0.95)) ∧
    ((detect_harassment "バカ！クズ！ゴミ！死ね！殺すぞ！").confidence =
      (if (detect_harassment "バカ！クズ！ゴミ！死ね！殺すぞ！").matched_patterns.length = 0
       then 0.9
       else if (detect_harassment "バカ！クズ！ゴミ！死ね！殺すぞ！").matched_patterns.length = 1
       then 0.7
       else if (detect_harassment "バカ！クズ！ゴミ！死ね！殺すぞ！").matched_patterns.length ≤ 3
       then 0.85
       else 0.95)) :=
  ⟨harassment_confidence_step_function "こんにちは" (by decide),
   harassment_confidence_step_function "届くのが遅い" (by decide),
   harassment_confidence_step_function "バカ！クズ！ゴミ！死ね！殺すぞ！" (by decide)⟩

/-- C10: on empty or whitespace-only text the detector returns the fixed
"no input" result (not harassment, severity none, confidence 1.0, empty
matched patterns and categories) and, being a total function, never raises. -/
theorem harassment_blank_input_default (text : String)
    (hb : isBlank text.toList = true) :
    detect_harassment text =
      { is_harassment := false
        severity := Severity.none
        confidence := 1
        matched_patterns := []
        categories := []
        recommendation := "入力なし" } := by
  have hb' : isBlank text.data = true := hb
  simp [detect_harassment, hb']

/-- Witness for C10 on the empty string and on whitespace-only input
(ASCII blanks and the ideographic space). -/
theorem harassment_blank_input_default_witness :
    detect_harassment "" =
      { is_harassment := false
        severity := Severity.none
        confidence := 1
        matched_patterns := []
        categories := []
        recommendation := "入力なし" } ∧
    detect_harassment " 　 " =
      { is_harassment := false
        severity := Severity.none
        confidence := 1
        matched_patterns := []
        categories := []
        recommendation := "入力なし" } :=
  ⟨harassment_blank_input_default "" (by decide),
   harassment_blank_input_default " 　 " (by decide)⟩

/-! ## Handoff builder (`src/layers/common/python/handoff.py`) -/

/-- A conversation message; the source reads only the `role` and `content`
keys of each message dict. -/
structure Message where
  role : String
  content : String
deriving DecidableEq, Repr

/-- The character class `[A-Z0-9\-]` under `re.IGNORECASE`. -/
def isOrderTokenChar (c : Char) : Bool :=
  ('A' ≤ c && c ≤ 'Z') || ('a' ≤ c && c ≤ 'z') || ('0' ≤ c && c ≤ '9') || c == '-'

/-- The optional `[：:]` element. -/
def dropColonOpt (t : List Char) : List Char :=
  match t with
  | c :: cs => if c = '：' ∨ c = ':' then cs else t
  | [] => t

/-- Match the head `(?:注文番号|オーダー|order\s*(?:number|#|no\.?))` of the
order-number regex at the start of `t` (case-insensitively) and return the
remainder.  The character classes separating the branches are pairwise
disjoint, so greedy ordered-alternative matching coincides with Python's
backtracking semantics on this pattern. -/
def matchOrderHead (t : List Char) : Option (List Char) :=
  let tl := t.map lowerChar
  if startsWithL "注文番号".toList tl then some (t.drop 4)
  else if startsWithL "オーダー".toList tl then some (t.drop 4)
  else if startsWithL "order".toList tl then
    let r := t.drop 5
    let r2 := r.dropWhile isPySpace
    let r2l := r2.map lowerChar
    if startsWithL "number".toList r2l then some (r2.drop 6)
    else if startsWithL "#".toList r2l then some (r2.drop 1)
    else if startsWithL "no".toList r2l then
      let r3 := r2.drop 2
      match r3 with
      | '.' :: cs => some cs
      | _ => some r3
    else none
  else none

/-- Match the full order-number regex at the start of `t`: head, `\s*`,
optional colon, `\s*`, then a non-empty `[A-Z0-9\-]+` capture.  Returns the
captured token and the remainder after the match. -/
def matchOrderAt (t : List Char) : Option (List Char × List Char) :=
  match matchOrderHead t with
  | none => none
  | some r =>
      let r1 := r.dropWhile isPySpace
      let r2 := dropColonOpt r1
      let r3 := r2.dropWhile isPySpace
      let tok := r3.takeWhile isOrderTokenChar
      if tok.isEmpty then none else some (tok, r3.drop tok.length)

/-- `re.findall` scan: try a match at each position, and continue after the
end of each match.  The fuel argument bounds the recursion; every successful
match consumes at least one character, so `t.length` fuel is never
exhausted. -/
def findOrderAux : Nat → List Char → List (List Char)
  | 0, _ => []
  | _ + 1, [] => []
  | fuel + 1, t@(_ :: rest) =>
      match matchOrderAt t with
      | some (tok, rem) => tok :: findOrderAux fuel rem
      | none => findOrderAux fuel rest

/-- All captures of the order-number regex in scan order. -/
def findOrderMatches (t : List Char) : List (List Char) :=
  findOrderAux t.length t

/-- `_extract_order_numbers(messages)`: collect the captures of every
message's content into a set and return it sorted. -/
def _extract_order_numbers (messages : List Message) : List String :=
  let all := messages.foldl
    (fun acc msg => acc ++ (findOrderMatches msg.content.toList).map String.mk) []
  sortStrings (dedupKeepFirst all)

/-- The `issue_patterns` table of `_extract_issues`, verbatim (each category
maps to a one-element list of regexes). -/
def issue_patterns : List (String × List Pat) :=
  [ ("配送問題", [mkPat "届かない|届いていない|配送.*遅|配達.*来ない|発送.*まだ"
        [["届かない"], ["届いていない"], ["配送", "遅"], ["配達", "来ない"],
         ["発送", "まだ"]]]),
    ("品質問題", [mkPat "壊れ|破損|不良|傷|汚れ|欠陥|故障|動かない"
        [["壊れ"], ["破損"], ["不良"], ["傷"], ["汚れ"], ["欠陥"], ["故障"],
         ["動かない"]]]),
    ("返品・返金", [mkPat "返品|返金|キャンセル|取り消し|払い戻し"
        [["返品"], ["返金"], ["キャンセル"], ["取り消し"], ["払い戻し"]]]),
    ("アカウント問題", [mkPat "ログイン.*できない|パスワード|アカウント.*ロック"
        [["ログイン", "できない"], ["パスワード"], ["アカウント", "ロック"]]]),
    ("料金問題", [mkPat "請求.*おかしい|二重.*課金|料金.*違う|値段.*間違"
        [["請求", "おかしい"], ["二重", "課金"], ["料金", "違う"], ["値段", "間違"]]]),
    ("対応不満", [mkPat "対応.*悪い|何度も.*問い合わせ|たらい回し|返事.*ない"
        [["対応", "悪い"], ["何度も", "問い合わせ"], ["たらい回し"], ["返事", "ない"]]]) ]

/-- `_extract_issues(messages)`: scan user-authored messages against the six
issue-category groups, recording each category at most once, in
first-detected order. -/
def _extract_issues (messages : List Message) : List String :=
  messages.foldl (fun issues msg =>
    if msg.role ≠ "user" then issues
    else issue_patterns.foldl (fun issues ip =>
      ip.2.foldl (fun issues p =>
        if reSearch p msg.content.toList ∧ ip.1 ∉ issues then issues ++ [ip.1]
        else issues) issues) issues) []

/-- `_determine_priority(...)`. -/
def _determine_priority (harassment_detected : Bool)
    (harassment_severity : Option String) (sentiment_history : List String)
    (message_count : Nat) : String :=
  if harassment_detected ∧
      (harassment_severity = some "critical" ∨ harassment_severity = some "high") then
    "critical"
  else if harassment_detected then "high"
  else
    let anger_count := sentiment_history.count "anger"
    if 2 ≤ anger_count then "high"
    else if 1 ≤ anger_count ∨ 10 < message_count then "high"
    else
      let negative_count := sentiment_history.count "negative"
      if 3 ≤ negative_count then "high"
      else "normal"

/-- Python `s[:n]`. -/
def takeStr (s : String) (n : Nat) : String := String.mk (s.toList.take n)

/-- `_generate_summary(messages, issues)`. -/
def _generate_summary (messages : List Message) (issues : List String) : String :=
  match messages.filter (fun m => m.role == "user") with
  | [] => "顧客からのメッセージなし"
  | first :: restc =>
      let msg_count := restc.length + 1
      let first_msg := takeStr first.content 100
      let last_msg := if 1 < msg_count then takeStr (restc.getLastD first).content 100 else ""
      let parts := ["顧客メッセージ数: " ++ toString msg_count]
      let parts := if issues.isEmpty then parts
        else parts ++ ["検出された問題: " ++ String.intercalate ", " issues]
      let parts := parts ++ ["最初の問い合わせ: 「" ++ first_msg ++ "」"]
      let parts := if last_msg = "" then parts
        else parts ++ ["最新のメッセージ: 「" ++ last_msg ++ "」"]
      String.intercalate " | " parts

/-- `metadata` dict of `build_handoff_context`. -/
structure Metadata where
  total_messages : Nat
  customer_messages : Nat
  handoff_timestamp : String
deriving DecidableEq, Repr

structure HandoffContext where
  conversation_id : String
  customer_name : Option String
  summary : String
  detected_issues : List String
  order_numbers : List String
  sentiment_history : List String
  harassment_detected : Bool
  harassment_severity : Option String
  priority : String
  ai_resolution_attempted : Bool
  metadata : Metadata
deriving DecidableEq, Repr

/-- `build_handoff_context(...)`.  The wall-clock reading of
`datetime.utcnow().isoformat()` is passed explicitly as `now`. -/
def build_handoff_context (now : String) (conversation_id : String)
    (messages : List Message) (customer_name : Option String)
    (sentiment_history : Option (List String)) (harassment_detected : Bool)
    (harassment_severity : Option String) (ai_resolution_attempted : Bool) :
    HandoffContext :=
  let sentiment_history := sentiment_history.getD []
  let order_numbers := _extract_order_numbers messages
  let issues := _extract_issues messages
  let summary := _generate_summary messages issues
  let priority := _determine_priority harassment_detected harassment_severity
    sentiment_history messages.length
  { conversation_id := conversation_id
    customer_name := customer_name
    summary := summary
    detected_issues := issues
    order_numbers := order_numbers
    sentiment_history := sentiment_history
    harassment_detected := harassment_detected
    harassment_severity := harassment_severity
    priority := priority
    ai_resolution_attempted := ai_resolution_attempted
    metadata :=
      { total_messages := messages.length
        customer_messages := (messages.filter (fun m => m.role == "user")).length
        handoff_timestamp := now } }

/-- The priority cascade exactly as the claim states it, rule by rule
(spec-side definition, compared with the source's `_determine_priority`). -/
def priorityRulesSpec (harassment_detected : Bool)
    (harassment_severity : Option String) (sentiment_history : List String)
    (message_count : Nat) : String :=
  if harassment_detected ∧
      (harassment_severity = some "critical" ∨ harassment_severity = some "high") then
    "critical"
  else if harassment_detected then "high"
  else if 2 ≤ sentiment_history.count "anger" then "high"
  else if 1 ≤ sentiment_history.count "anger" ∨ 10 < message_count then "high"
  else if 3 ≤ sentiment_history.count "negative" then "high"
  else "normal"

/-- C4: the handoff priority is decided by the claim's six rules in order
(first match wins), and in particular harassment with severity "critical"
forces priority "critical" through `build_handoff_context`, for every message
list and sentiment history. -/
theorem handoff_priority_rules :
    (∀ (hd : Bool) (hs : Option String) (sh : List String) (mc : Nat),
        _determine_priority hd hs sh mc = priorityRulesSpec hd hs sh mc) ∧
    (∀ (now cid : String) (msgs : List Message) (cn : Option String)
        (sh : Option (List String)) (ar : Bool),
        (build_handoff_context now cid msgs cn sh true (some "critical") ar).priority =
          "critical") := by
  constructor
  · intro hd hs sh mc
    rfl
  · intro now cid msgs cn sh ar
    simp [build_handoff_context, _determine_priority]

/-- C5 fails on the code: `build_handoff_context` stamps the current wall
clock into `metadata.handoff_timestamp`, so two calls with identical declared
arguments but different clock readings return different `HandoffContext`
values. -/
theorem handoff_purity_counterexample :
    build_handoff_context "2025-01-01T00:00:00" "c1" [⟨"user", "こんにちは"⟩]
        Option.none Option.none false Option.none true ≠
      build_handoff_context "2025-01-01T00:00:01" "c1" [⟨"user", "こんにちは"⟩]
        Option.none Option.none false Option.none true := by
  decide

/-- C5 (amended): apart from `metadata.handoff_timestamp`, which records the
clock, `build_handoff_context` is deterministic in its declared arguments:
every other field — including `metadata.total_messages` and
`metadata.customer_messages` — is independent of the clock reading. -/
theorem handoff_deterministic_except_timestamp (now1 now2 cid : String)
    (msgs : List Message) (cn : Option String) (sh : Option (List String))
    (hd : Bool) (hs : Option String) (ar : Bool) :
    (build_handoff_context now1 cid msgs cn sh hd hs ar).conversation_id =
      (build_handoff_context now2 cid msgs cn sh hd hs ar).conversation_id ∧
    (build_handoff_context now1 cid msgs cn sh hd hs ar).customer_name =
      (build_handoff_context now2 cid msgs cn sh hd hs ar).customer_name ∧
    (build_handoff_context now1 cid msgs cn sh hd hs ar).summary =
      (build_handoff_context now2 cid msgs cn sh hd hs ar).summary ∧
    (build_handoff_context now1 cid msgs cn sh hd hs ar).detected_issues =
      (build_handoff_context now2 cid msgs cn sh hd hs ar).detected_issues ∧
    (build_handoff_context now1 cid msgs cn sh hd hs ar).order_numbers =
      (build_handoff_context now2 cid msgs cn sh hd hs ar).order_numbers ∧
    (build_handoff_context now1 cid msgs cn sh hd hs ar).sentiment_history =
      (build_handoff_context now2 cid msgs cn sh hd hs ar).sentiment_history ∧
    (build_handoff_context now1 cid msgs cn sh hd hs ar).harassment_detected =
      (build_handoff_context now2 cid msgs cn sh hd hs ar).harassment_detected ∧
    (build_handoff_context now1 cid msgs cn sh hd hs ar).harassment_severity =
      (build_handoff_context now2 cid msgs cn sh hd hs ar).harassment_severity ∧
    (build_handoff_context now1 cid msgs cn sh hd hs ar).priority =
      (build_handoff_context now2 cid msgs cn sh hd hs ar).priority ∧
    (build_handoff_context now1 cid msgs cn sh hd hs ar).ai_resolution_attempted =
      (build_handoff_context now2 cid msgs cn sh hd hs ar).ai_resolution_attempted ∧
    (build_handoff_context now1 cid msgs cn sh hd hs ar).metadata.total_messages =
      (build_handoff_context now2 cid msgs cn sh hd hs ar).metadata.total_messages ∧
    (build_handoff_context now1 cid msgs cn sh hd hs ar).metadata.customer_messages =
      (build_handoff_context now2 cid msgs cn sh hd hs ar).metadata.customer_messages :=
  ⟨rfl, rfl, rfl, rfl, rfl, rfl, rfl, rfl, rfl, rfl, rfl, rfl⟩

/-- C6 fails on the code: on the single user message
"注文番号 ORD-12345 の商品が届きません" no shipping-issue pattern matches
(`届かない|届いていない|配送.*遅|配達.*来ない|発送.*まだ` does not match
"届きません"), so `detected_issues` does not contain 配送問題. -/
theorem handoff_order_extraction_counterexample :
    "配送問題" ∉
      (build_handoff_context "2025-01-01T00:00:00" "c1"
        [⟨"user", "注文番号 ORD-12345 の商品が届きません"⟩]
        Option.none Option.none false Option.none true).detected_issues := by
  decide

/-- C6 (amended): on that input `order_numbers` is exactly `["ORD-12345"]`
and `detected_issues` is empty — the shipping-issue category is recorded only
for texts matching its patterns, e.g. 届かない. -/
theorem handoff_order_extraction_amended :
    (build_handoff_context "2025-01-01T00:00:00" "c1"
        [⟨"user", "注文番号 ORD-12345 の商品が届きません"⟩]
        Option.none Option.none false Option.none true).order_numbers =
      ["ORD-12345"] ∧
    (build_handoff_context "2025-01-01T00:00:00" "c1"
        [⟨"user", "注文番号 ORD-12345 の商品が届きません"⟩]
        Option.none Option.none false Option.none true).detected_issues = [] ∧
    _extract_issues [⟨"user", "商品が届かない"⟩] = ["配送問題"] := by
  refine ⟨by decide, by decide, by decide⟩

/-! ## Sentiment analyzer (`src/layers/common/python/sentiment_analyzer.py`) -/

inductive Sentiment
  | positive | neutral | negative | anger
deriving DecidableEq, Repr

/-- The four-way score distribution (`scores` dict). -/
structure Scores where
  positive : ℚ
  neutral : ℚ
  negative : ℚ
  anger : ℚ
deriving DecidableEq, Repr

structure SentimentResult where
  sentiment : Sentiment
  confidence : ℚ
  scores : Scores
  trigger_alert : Bool
  keywords_found : List String
deriving DecidableEq, Repr

def POSITIVE_KEYWORDS : List String :=
  [ "ありがとう", "助かり", "感謝", "嬉しい", "うれしい", "素晴らしい",
    "すばらしい", "最高", "完璧", "良い", "よい", "いい", "丁寧",
    "親切", "迅速", "便利", "満足", "解決", "サンキュー", "神対応",
    "great", "thanks", "thank you", "excellent", "good", "perfect" ]

def NEGATIVE_KEYWORDS : List String :=
  [ "不満", "不便", "残念", "がっかり", "困る", "困って", "心配",
    "不安", "面倒", "嫌", "いやだ", "ダメ", "だめ", "問題",
    "使えない", "分からない", "エラー", "バグ", "障害", "遅い",
    "改善", "苦情", "クレーム" ]

def ANGER_KEYWORDS : List String :=
  [ "怒り", "怒って", "激怒", "ふざけるな", "ふざけんな",
    "いい加減にしろ", "いい加減にして", "許さない", "許せない",
    "ありえない", "信じられない", "最悪", "最低", "酷い", "ひどい",
    "クソ", "くそ", "バカ", "ばか", "アホ", "死ね", "殺す",
    "キレ", "きれ", "ブチギレ", "ブチ切れ", "腹が立つ", "腹立つ",
    "むかつく", "ムカつく", "イライラ", "苛々", "頭にくる",
    "なめてる", "ナメてる", "舐めてる", "ゴミ", "カス" ]

/-- `_count_matches(text, keywords)`: the number of dictionary entries that
occur (case-insensitively) in the text, with the list of those entries. -/
def countMatches (text : List Char) (keywords : List String) : Nat × List String :=
  let text_lower := text.map lowerChar
  let found := keywords.filter (fun kw => containsSub text_lower (kw.toList.map lowerChar))
  (found.length, found)

/-- Python `round(x, 3)`: round to a multiple of `1/1000`. -/
def round3 (x : ℚ) : ℚ := (round (x * 1000) : ℚ) / 1000

/-- The dominant-sentiment decision tree of `analyze_sentiment`
(lines 108-129), returning the dominant label and the base confidence. -/
def dominantOf (pos_count neg_count ang_count : Nat) : Sentiment × ℚ :=
  if 2 ≤ ang_count ∨ (1 ≤ ang_count ∧ 1 ≤ neg_count) then
    (Sentiment.anger, min 0.95 (0.6 + (ang_count : ℚ) * 0.1))
  else if 1 ≤ ang_count then (Sentiment.anger, 0.7)
  else if pos_count < neg_count ∧ 2 ≤ neg_count then
    (Sentiment.negative, min 0.9 (0.5 + (neg_count : ℚ) * 0.1))
  else if pos_count < neg_count then (Sentiment.negative, 0.6)
  else if neg_count < pos_count ∧ 2 ≤ pos_count then
    (Sentiment.positive, min 0.9 (0.5 + (pos_count : ℚ) * 0.1))
  else if 0 < pos_count then (Sentiment.positive, 0.6)
  else (Sentiment.neutral, 0.8)

/-- Score normalization of `analyze_sentiment` (lines 137-147): renormalize
the four raw masses to sum to 1 and round to 3 decimals, with the zero-mass
fallback. -/
def normalizeScores (pos_score neu_score neg_score ang_score : ℚ) : Scores :=
  let score_total := pos_score + neg_score + ang_score + neu_score
  if 0 < score_total then
    { positive := round3 (pos_score / score_total)
      neutral := round3 (neu_score / score_total)
      negative := round3 (neg_score / score_total)
      anger := round3 (ang_score / score_total) }
  else
    { positive := 0, neutral := 1, negative := 0, anger := 0 }

/-- The body of `analyze_sentiment` after keyword counting: raw scores,
dominant label, exclamation booster, normalization and assembly. -/
def sentimentCore (pos_count neg_count ang_count exclamation_count : Nat)
    (pos_found neg_found ang_found : List String) : SentimentResult :=
  let total : ℚ := (pos_count : ℚ) + (neg_count : ℚ) + (ang_count : ℚ) + 1
  let pos_score := (pos_count : ℚ) / total
  let neg_score := (neg_count : ℚ) / total
  let ang_score := (ang_count : ℚ) / total
  let neu_score := 1 / total
  let all_found := pos_found ++ neg_found ++ ang_found
  let dc := dominantOf pos_count neg_count ang_count
  let boost : Bool := decide (3 ≤ exclamation_count) &&
    (decide (dc.1 = Sentiment.negative) || decide (dc.1 = Sentiment.anger))
  let confidence := if boost then min 0.98 (dc.2 + 0.1) else dc.2
  let ang_score := if boost then ang_score + 0.1 else ang_score
  { sentiment := dc.1
    confidence := round3 confidence
    scores := normalizeScores pos_score neu_score neg_score ang_score
    trigger_alert := decide (dc.1 = Sentiment.anger)
    keywords_found := all_found }

/-- `analyze_sentiment(text)`. -/
def analyze_sentiment (text : String) : SentimentResult :=
  let t := text.toList
  if isBlank t then
    { sentiment := Sentiment.neutral
      confidence := 1
      scores := { positive := 0, neutral := 1, negative := 0, anger := 0 }
      trigger_alert := false
      keywords_found := [] }
  else
    let pm := countMatches t POSITIVE_KEYWORDS
    let nm := countMatches t NEGATIVE_KEYWORDS
    let am := countMatches t ANGER_KEYWORDS
    let exclamation_count := t.count '!' + t.count '！'
    sentimentCore pm.1 nm.1 am.1 exclamation_count pm.2 nm.2 am.2

/-- `sentiment` field of the core: the dominant label of the decision tree. -/
theorem sentimentCore_sentiment (p n a e : Nat) (f1 f2 f3 : List String) :
    (sentimentCore p n a e f1 f2 f3).sentiment = (dominantOf p n a).1 := rfl

/-- `trigger_alert` field of the core: exactly `dominant == anger`. -/
theorem sentimentCore_trigger (p n a e : Nat) (f1 f2 f3 : List String) :
    (sentimentCore p n a e f1 f2 f3).trigger_alert =
      decide ((dominantOf p n a).1 = Sentiment.anger) := rfl

/-- `confidence` field of the core, spelled out. -/
theorem sentimentCore_confidence (p n a e : Nat) (f1 f2 f3 : List String) :
    (sentimentCore p n a e f1 f2 f3).confidence =
      round3 (if (decide (3 ≤ e) &&
          (decide ((dominantOf p n a).1 = Sentiment.negative) ||
           decide ((dominantOf p n a).1 = Sentiment.anger))) = true
        then min 0.98 ((dominantOf p n a).2 + 0.1)
        else (dominantOf p n a).2) := rfl

/-- `scores` field of the core, spelled out. -/
theorem sentimentCore_scores (p n a e : Nat) (f1 f2 f3 : List String) :
    (sentimentCore p n a e f1 f2 f3).scores =
      normalizeScores ((p : ℚ) / ((p : ℚ) + (n : ℚ) + (a : ℚ) + 1))
        (1 / ((p : ℚ) + (n : ℚ) + (a : ℚ) + 1))
        ((n : ℚ) / ((p : ℚ) + (n : ℚ) + (a : ℚ) + 1))
        (if (decide (3 ≤ e) &&
            (decide ((dominantOf p n a).1 = Sentiment.negative) ||
             decide ((dominantOf p n a).1 = Sentiment.anger))) = true
         then (a : ℚ) / ((p : ℚ) + (n : ℚ) + (a : ℚ) + 1) + 0.1
         else (a : ℚ) / ((p : ℚ) + (n : ℚ) + (a : ℚ) + 1)) := rfl

/-- On non-blank text, `analyze_sentiment` is the core applied to the keyword
counts and the exclamation count. -/
theorem analyze_sentiment_core (text : String) (hb : isBlank text.toList = false) :
    analyze_sentiment text =
      sentimentCore (countMatches text.toList POSITIVE_KEYWORDS).1
        (countMatches text.toList NEGATIVE_KEYWORDS).1
        (countMatches text.toList ANGER_KEYWORDS).1
        (text.toList.count '!' + text.toList.count '！')
        (countMatches text.toList POSITIVE_KEYWORDS).2
        (countMatches text.toList NEGATIVE_KEYWORDS).2
        (countMatches text.toList ANGER_KEYWORDS).2 := by
  simp only [analyze_sentiment, hb, Bool.false_eq_true, if_false]

/-- With at least two anger hits the decision tree picks anger. -/
theorem dominantOf_anger (p n a : Nat) (ha : 2 ≤ a) :
    (dominantOf p n a).1 = Sentiment.anger := by
  simp [dominantOf, ha]

/-- C3: two distinct anger keywords in a (non-blank) text force
sentiment = anger and trigger_alert = true regardless of the positive and
negative counts, and on every input trigger_alert holds exactly when the
dominant sentiment is anger. -/
theorem sentiment_anger_forcing :
    (∀ text : String, isBlank text.toList = false →
        2 ≤ (countMatches text.toList ANGER_KEYWORDS).1 →
        (analyze_sentiment text).sentiment = Sentiment.anger ∧
        (analyze_sentiment text).trigger_alert = true) ∧
    (∀ text : String,
        ((analyze_sentiment text).trigger_alert = true ↔
          (analyze_sentiment text).sentiment = Sentiment.anger)) := by
  constructor
  · intro text hb ha
    rw [analyze_sentiment_core text hb, sentimentCore_sentiment, sentimentCore_trigger,
      dominantOf_anger _ _ _ ha]
    exact ⟨rfl, by decide⟩
  · intro text
    by_cases hb : isBlank text.toList = true
    · have hres : analyze_sentiment text =
          { sentiment := Sentiment.neutral, confidence := 1,
            scores := { positive := 0, neutral := 1, negative := 0, anger := 0 },
            trigger_alert := false, keywords_found := [] } := by
        have hbd : isBlank text.data = true := hb
        simp [analyze_sentiment, hb, hbd]
      rw [hres]
      simp
    · have hbf : isBlank text.toList = false := by simpa using hb
      rw [analyze_sentiment_core text hbf, sentimentCore_sentiment, sentimentCore_trigger]
      exact decide_eq_true_iff

/-- Witness for C3: "最悪でひどい" contains the two distinct anger keywords
最悪 and ひどい. -/
theorem sentiment_anger_forcing_witness :
    ((analyze_sentiment "最悪でひどい").sentiment = Sentiment.anger ∧
      (analyze_sentiment "最悪でひどい").trigger_alert = true) ∧
    ((analyze_sentiment "ありがとう").trigger_alert = true ↔
      (analyze_sentiment "ありがとう").sentiment = Sentiment.anger) :=
  ⟨sentiment_anger_forcing.1 "最悪でひどい" (by decide) (by decide),
   sentiment_anger_forcing.2 "ありがとう"⟩

/-- Rounding to 3 decimals moves a value by at most half an ulp, 1/2000. -/
theorem round3_close (x : ℚ) : |round3 x - x| ≤ 1 / 2000 := by
  have h2 : |(round (x * 1000) : ℚ) - x * 1000| ≤ 1 / 2 := by
    rw [abs_sub_comm]; exact abs_sub_round (x * 1000)
  have e : round3 x - x = ((round (x * 1000) : ℚ) - x * 1000) / 1000 := by
    unfold round3; ring
  rw [e, abs_div, abs_of_pos (show (0 : ℚ) < 1000 by norm_num)]
  rw [div_le_iff (show (0 : ℚ) < 1000 by norm_num)]
  calc |(round (x * 1000) : ℚ) - x * 1000| ≤ 1 / 2 := h2
    _ = 1 / 2000 * 1000 := by norm_num

/-- Rounding each of four values summing to 1 keeps the sum within 1/100. -/
theorem round3_sum_close (a b c d : ℚ) (h : a + b + c + d = 1) :
    |round3 a + round3 b + round3 c + round3 d - 1| ≤ 1 / 100 := by
  have h1 := round3_close a
  have h2 := round3_close b
  have h3 := round3_close c
  have h4 := round3_close d
  have e : round3 a + round3 b + round3 c + round3 d - 1 =
      (round3 a - a) + (round3 b - b) + (round3 c - c) + (round3 d - d) := by
    rw [← h]; ring
  rw [e]
  have t1 := abs_add (round3 a - a) (round3 b - b)
  have t2 := abs_add ((round3 a - a) + (round3 b - b)) (round3 c - c)
  have t3 := abs_add ((round3 a - a) + (round3 b - b) + (round3 c - c)) (round3 d - d)
  linarith

/-- With nonnegative raw masses and positive neutral mass, the normalized and
rounded scores sum to 1 within 1/100. -/
theorem normalizeScores_sum (ps neu ns as : ℚ) (hp : 0 ≤ ps) (hn : 0 ≤ ns)
    (ha : 0 ≤ as) (hneu : 0 < neu) :
    |(normalizeScores ps neu ns as).positive + (normalizeScores ps neu ns as).neutral +
      (normalizeScores ps neu ns as).negative + (normalizeScores ps neu ns as).anger - 1|
      ≤ 1 / 100 := by
  have hT : 0 < ps + ns + as + neu := by linarith
  have hT0 : ps + ns + as + neu ≠ 0 := ne_of_gt hT
  simp only [normalizeScores, if_pos hT]
  exact round3_sum_close _ _ _ _ (by field_simp; ring)

/-- C7: for every non-empty input the four returned scores sum to 1 within
tolerance 1/100, whether or not the exclamation booster added 0.1 to the raw
anger score before normalization. -/
theorem sentiment_scores_sum (text : String) (h : text ≠ "") :
    |(analyze_sentiment text).scores.positive + (analyze_sentiment text).scores.neutral +
      (analyze_sentiment text).scores.negative + (analyze_sentiment text).scores.anger - 1|
      ≤ 1 / 100 := by
  by_cases hb : isBlank text.toList = true
  · have hbd : isBlank text.data = true := hb
    have hres : analyze_sentiment text =
        { sentiment := Sentiment.neutral, confidence := 1,
          scores := { positive := 0, neutral := 1, negative := 0, anger := 0 },
          trigger_alert := false, keywords_found := [] } := by
      simp [analyze_sentiment, hb, hbd]
    rw [hres]
    norm_num
  · have hbf : isBlank text.toList = false := by simpa using hb
    rw [analyze_sentiment_core text hbf, sentimentCore_scores]
    have hTpos : (0 : ℚ) <
        ((countMatches text.toList POSITIVE_KEYWORDS).1 : ℚ) +
        ((countMatches text.toList NEGATIVE_KEYWORDS).1 : ℚ) +
        ((countMatches text.toList ANGER_KEYWORDS).1 : ℚ) + 1 := by
      positivity
    apply normalizeScores_sum
    · exact div_nonneg (by positivity) (le_of_lt hTpos)
    · exact div_nonneg (by positivity) (le_of_lt hTpos)
    · split
      · have : (0 : ℚ) ≤ ((countMatches text.toList ANGER_KEYWORDS).1 : ℚ) /
            (((countMatches text.toList POSITIVE_KEYWORDS).1 : ℚ) +
             ((countMatches text.toList NEGATIVE_KEYWORDS).1 : ℚ) +
             ((countMatches text.toList ANGER_KEYWORDS).1 : ℚ) + 1) :=
          div_nonneg (by positivity) (le_of_lt hTpos)
        have h01 : (0 : ℚ) ≤ 0.1 := by norm_num
        linarith
      · exact div_nonneg (by positivity) (le_of_lt hTpos)
    · exact div_pos one_pos hTpos

/-- Witness for C7 on a concrete input that triggers the exclamation booster
(two negative keywords and five exclamation marks). -/
theorem sentiment_scores_sum_witness :
    |(analyze_sentiment "残念でがっかりです！！！！！").scores.positive +
      (analyze_sentiment "残念でがっかりです！！！！！").scores.neutral +
      (analyze_sentiment "残念でがっかりです！！！！！").scores.negative +
      (analyze_sentiment "残念でがっかりです！！！！！").scores.anger - 1| ≤ 1 / 100 :=
  sentiment_scores_sum "残念でがっかりです！！！！！" (by decide)

/-! ### Appending exclamation marks does not change keyword matches -/

theorem containsSub_nil_kw : ∀ t : List Char, containsSub t [] = true := by
  intro t
  cases t <;> simp [containsSub, startsWithL, List.isEmpty]

theorem startsWithL_append (kw t s : List Char) (h : startsWithL kw t = true) :
    startsWithL kw (t ++ s) = true := by
  induction kw generalizing t with
  | nil => rfl
  | cons k ks ih =>
      cases t with
      | nil => simp [startsWithL] at h
      | cons c cs =>
          simp only [startsWithL, Bool.and_eq_true, beq_iff_eq] at h
          simp only [List.cons_append, startsWithL, Bool.and_eq_true, beq_iff_eq]
          exact ⟨h.1, ih cs h.2⟩

theorem containsSub_append_of (t s kw : List Char) (h : containsSub t kw = true) :
    containsSub (t ++ s) kw = true := by
  induction t with
  | nil =>
      have : kw = [] := by simpa [containsSub, List.isEmpty_iff] using h
      subst this
      exact containsSub_nil_kw s
  | cons c cs ih =>
      simp only [containsSub, Bool.or_eq_true] at h
      simp only [List.cons_append, containsSub, Bool.or_eq_true]
      rcases h with h | h
      · exact Or.inl (startsWithL_append kw (c :: cs) s h)
      · exact Or.inr (ih h)

theorem startsWithL_append_cases (kw t s : List Char)
    (h : startsWithL kw (t ++ s) = true) :
    startsWithL kw t = true ∨ ∃ c ∈ kw, c ∈ s := by
  induction kw generalizing t with
  | nil => exact Or.inl rfl
  | cons k ks ih =>
      cases t with
      | nil =>
          right
          cases s with
          | nil => simp [startsWithL] at h
          | cons c cs =>
              simp only [List.nil_append, startsWithL, Bool.and_eq_true, beq_iff_eq] at h
              exact ⟨k, List.mem_cons_self _ _, by rw [h.1]; exact List.mem_cons_self _ _⟩
      | cons a ts =>
          simp only [List.cons_append, startsWithL, Bool.and_eq_true, beq_iff_eq] at h
          rcases ih ts h.2 with h' | ⟨c, hc1, hc2⟩
          · left
            simp only [startsWithL, Bool.and_eq_true, beq_iff_eq]
            exact ⟨h.1, h'⟩
          · exact Or.inr ⟨c, List.mem_cons_of_mem _ hc1, hc2⟩

theorem containsSub_mem (s kw : List Char) (h : containsSub s kw = true) :
    kw = [] ∨ ∃ c ∈ kw, c ∈ s := by
  induction s with
  | nil => exact Or.inl (by simpa [containsSub, List.isEmpty_iff] using h)
  | cons c cs ih =>
      simp only [containsSub, Bool.or_eq_true] at h
      rcases h with h | h
      · cases kw with
        | nil => exact Or.inl rfl
        | cons k ks =>
            right
            simp only [startsWithL, Bool.and_eq_true, beq_iff_eq] at h
            exact ⟨k, List.mem_cons_self _ _, by rw [h.1]; exact List.mem_cons_self _ _⟩
      · rcases ih h with h' | ⟨d, hd1, hd2⟩
        · exact Or.inl h'
        · exact Or.inr ⟨d, hd1, List.mem_cons_of_mem _ hd2⟩

theorem containsSub_append_cases (t s kw : List Char)
    (h : containsSub (t ++ s) kw = true) :
    containsSub t kw = true ∨ ∃ c ∈ kw, c ∈ s := by
  induction t with
  | nil =>
      rcases containsSub_mem s kw (by simpa using h) with rfl | h'
      · exact Or.inl (containsSub_nil_kw [])
      · exact Or.inr h'
  | cons c cs ih =>
      simp only [List.cons_append, containsSub, Bool.or_eq_true] at h
      rcases h with h | h
      · rcases startsWithL_append_cases kw (c :: cs) s (by simpa using h) with h' | h'
        · left
          simp only [containsSub, Bool.or_eq_true]
          exact Or.inl h'
        · exact Or.inr h'
      · rcases ih h with h' | h'
        · left
          simp only [containsSub, Bool.or_eq_true]
          exact Or.inr h'
        · exact Or.inr h'

/-- Appending characters that occur nowhere in `kw` does not change the
substring test. -/
theorem containsSub_append_iff (t s kw : List Char) (hdisj : ∀ c ∈ kw, c ∉ s) :
    containsSub (t ++ s) kw = containsSub t kw := by
  by_cases h : containsSub t kw = true
  · rw [h, containsSub_append_of t s kw h]
  · have h2 : containsSub (t ++ s) kw ≠ true := by
      intro hc
      rcases containsSub_append_cases t s kw hc with h' | ⟨c, hc1, hc2⟩
      · exact h h'
      · exact hdisj c hc1 hc2
    rw [Bool.eq_false_iff.mpr h2, Bool.eq_false_iff.mpr h]

/-- The appended booster string. -/
def exclSuffix : String := "！！！！！"

/-- Appending "！！！！！" leaves every keyword count (and found list)
unchanged, provided no keyword mentions the full-width exclamation mark. -/
theorem countMatches_append_excl (t : List Char) (kws : List String)
    (hk : ∀ kw ∈ kws, '！' ∉ kw.toList.map lowerChar) :
    countMatches (t ++ exclSuffix.toList) kws = countMatches t kws := by
  have hmap : (t ++ exclSuffix.toList).map lowerChar =
      t.map lowerChar ++ exclSuffix.toList := by
    rw [List.map_append]
    rfl
  have hf : ∀ kw ∈ kws,
      containsSub (t.map lowerChar ++ exclSuffix.toList) (kw.toList.map lowerChar) =
        containsSub (t.map lowerChar) (kw.toList.map lowerChar) := by
    intro kw hkw
    apply containsSub_append_iff
    intro c hc hcs
    have hco : ∀ x ∈ exclSuffix.toList, x = '！' := by decide
    rw [hco c hcs] at hc
    exact hk kw hkw hc
  simp only [countMatches, hmap]
  rw [List.filter_congr hf]

/-- Appending "！！！！！" adds exactly 5 to the exclamation count. -/
theorem exclCount_append (t : List Char) :
    (t ++ exclSuffix.toList).count '!' + (t ++ exclSuffix.toList).count '！' =
      (t.count '!' + t.count '！') + 5 := by
  rw [List.count_append, List.count_append]
  have h1 : exclSuffix.toList.count '!' = 0 := rfl
  have h2 : exclSuffix.toList.count '！' = 5 := rfl
  rw [h1, h2]
  omega

/-- A text with "！！！！！" appended is never blank. -/
theorem isBlank_append_excl (t : List Char) :
    isBlank (t ++ exclSuffix.toList) = false := by
  rw [isBlank, List.all_append]
  have h : exclSuffix.toList.all isPySpace = false := by decide
  rw [h, Bool.and_false]

/-- Every base confidence produced by the decision tree is at most 0.95. -/
theorem dominantOf_conf_le (p n a : Nat) : (dominantOf p n a).2 ≤ 0.95 := by
  have h95 : (0.9 : ℚ) ≤ 0.95 := by norm_num
  unfold dominantOf
  split_ifs
  · exact min_le_left _ _
  · norm_num
  · exact le_trans (min_le_left _ _) h95
  · norm_num
  · exact le_trans (min_le_left _ _) h95
  · norm_num
  · norm_num

/-- Rounding to 3 decimals is monotone. -/
theorem round3_mono {x y : ℚ} (h : x ≤ y) : round3 x ≤ round3 y := by
  unfold round3
  have hm : round (x * 1000) ≤ round (y * 1000) := by
    rw [round_eq, round_eq]
    exact Int.floor_le_floor (by linarith)
  have hq : ((round (x * 1000) : ℤ) : ℚ) ≤ ((round (y * 1000) : ℤ) : ℚ) := by
    exact_mod_cast hm
  linarith

/-- Raising the exclamation count by 5 never decreases the confidence when
the dominant label is negative or anger. -/
theorem sentimentCore_confidence_mono (p n a e : Nat)
    (f1 f2 f3 g1 g2 g3 : List String)
    (h : (dominantOf p n a).1 = Sentiment.negative ∨
         (dominantOf p n a).1 = Sentiment.anger) :
    (sentimentCore p n a e f1 f2 f3).confidence ≤
      (sentimentCore p n a (e + 5) g1 g2 g3).confidence := by
  rw [sentimentCore_confidence, sentimentCore_confidence]
  have hd : (decide ((dominantOf p n a).1 = Sentiment.negative) ||
      decide ((dominantOf p n a).1 = Sentiment.anger)) = true := by
    rcases h with h | h <;> simp [h]
  rw [hd, Bool.and_true, Bool.and_true]
  have he5 : decide (3 ≤ e + 5) = true := by
    simp only [decide_eq_true_eq]
    omega
  rw [he5]
  apply round3_mono
  by_cases he : 3 ≤ e
  · simp [he]
  · rw [decide_eq_false he]
    simp only [Bool.false_eq_true, if_false, if_pos rfl]
    have hc := dominantOf_conf_le p n a
    apply le_min
    · linarith [show (0.95 : ℚ) ≤ 0.98 by norm_num]
    · linarith [show (0 : ℚ) ≤ 0.1 by norm_num]

/-- C8: appending "！！！！！" never decreases the returned confidence when
the dominant sentiment of the original text is negative or anger. -/
theorem sentiment_exclamation_boost (text : String)
    (h : (analyze_sentiment text).sentiment = Sentiment.negative ∨
         (analyze_sentiment text).sentiment = Sentiment.anger) :
    (analyze_sentiment text).confidence ≤
      (analyze_sentiment (text ++ exclSuffix)).confidence := by
  by_cases hb : isBlank text.toList = true
  · exfalso
    have hbd : isBlank text.data = true := hb
    have hres : (analyze_sentiment text).sentiment = Sentiment.neutral := by
      simp [analyze_sentiment, hb, hbd]
    rcases h with h | h <;> rw [hres] at h <;> exact absurd h (by decide)
  · have hbf : isBlank text.toList = false := by simpa using hb
    have happ : (text ++ exclSuffix).toList = text.toList ++ exclSuffix.toList :=
      String.data_append text exclSuffix
    have hbf2 : isBlank (text ++ exclSuffix).toList = false := by
      rw [happ]
      exact isBlank_append_excl _
    have hp := countMatches_append_excl text.toList POSITIVE_KEYWORDS (by decide)
    have hn := countMatches_append_excl text.toList NEGATIVE_KEYWORDS (by decide)
    have ha := countMatches_append_excl text.toList ANGER_KEYWORDS (by decide)
    have he := exclCount_append text.toList
    rw [analyze_sentiment_core text hbf] at h ⊢
    rw [analyze_sentiment_core _ hbf2]
    rw [happ, hp, hn, ha, he]
    exact sentimentCore_confidence_mono _ _ _ _ _ _ _ _ _ _ h

/-- Witness for C8 on a concrete negative-dominant text without prior
exclamation marks. -/
theorem sentiment_exclamation_boost_witness :
    (analyze_sentiment "残念でがっかりです").confidence ≤
      (analyze_sentiment ("残念でがっかりです" ++ exclSuffix)).confidence :=
  sentiment_exclamation_boost "残念でがっかりです" (by decide)
